import Mathlib

/-!
Verification of the si4703 FM-radio driver (package `si4703`, file `si4703.go`).

The driver keeps a 16-word shadow image of the chip's register bank
(`d.registers`, a slice of 16 `uint16`), refreshes it with `readRegisters`
(a combined bus write of register 0x02 followed by a 32-byte read, decoded
big-endian starting at device index 0x0A and wrapping to 0x00), writes it
back with `updateRegisters` (registers 0x02..0x07 big-endian in one
transaction), and drives tune (`SetChannel`) and seek (`Seek`) by polling
the STC completion flag.

Shallow embedding conventions:
* a register bank is a function `Nat → Nat` (index ↦ 16-bit word);
  `d.registers[i] = v` becomes `setReg regs i v`;
* byte buffers are `List Nat` (each entry one byte);
* `uint16` arithmetic is `Nat` arithmetic with explicit `% 65536` where the
  Go code can wrap; Go `p &^ m` on `uint16` is `p &&& (0xFFFF ^^^ m)`;
* the bus is modelled by the sequence of 32-byte buffers the device returns
  to successive read-all transactions (`resp : Nat → List Nat`), and, for
  `readRegisters`, by an `Option (List Nat)` whose `none` is a transport
  failure of `d.bus.Tx`;
* the unbounded `for` poll loops are modelled with an explicit fuel
  parameter: a result of `none` means the loop has not terminated within
  `fuel` iterations (so `∀ fuel, … = none` says the loop never terminates);
* bus traffic is recorded as a `List BusEvent` so that the order of
  read-all and write-range transactions inside an operation is observable.
-/

namespace Si4703

/-! ### Register indices and bit positions (the `const` blocks of the source) -/

def DEVICEID : Nat := 0
def CHIPID : Nat := 1
def POWERCFG : Nat := 2
def CHANNEL : Nat := 3
def SYSCONFIG1 : Nat := 4
def SYSCONFIG2 : Nat := 5
def STATUSRSSI : Nat := 10
def READCHAN : Nat := 11
def RDSA : Nat := 12
def RDSB : Nat := 13
def RDSC : Nat := 14
def RDSD : Nat := 15

def SMUTE : Nat := 15
def DMUTE : Nat := 14
def FORCEMONO : Nat := 13
def RDSMODE : Nat := 11
def SKMODE : Nat := 10
def SEEKUP : Nat := 9
def SEEK : Nat := 8
def TUNE : Nat := 15
def STC : Nat := 14
def SFBL : Nat := 13

/-! ### The register bank and 16-bit big-endian byte codec -/

/-- The shadow register bank `d.registers`: index (0..15) ↦ 16-bit word. -/
abbrev Bank := Nat → Nat

/-- `d.registers[i] = v`. -/
def setReg (regs : Bank) (i v : Nat) : Bank :=
  fun j => if j = i then v else regs j

/-- High byte of a `uint16` written big-endian (`binary.Write(.., BigEndian, v)`). -/
def be16hi (v : Nat) : Nat := v / 256 % 256

/-- Low byte of a `uint16` written big-endian. -/
def be16lo (v : Nat) : Nat := v % 256

/-- The two bytes of a `uint16` in big-endian order. -/
def be16 (v : Nat) : List Nat := [be16hi v, be16lo v]

/-- `binary.Read(.., BigEndian, &word)` on two bytes. -/
def word16 (hi lo : Nat) : Nat := hi * 256 + lo

/-! ### readRegisters (source lines 166–205)

`readRegisters` first writes the current value of register 0x02 big-endian
(the preamble, so the device's address pointer is not perturbed), then reads
32 bytes, and decodes them into the bank with a loop that starts at index
0x0A, wraps from 0x0F to 0x00, and stops after filling index 0x09. -/

/-- The preamble bytes `readRegisters` writes before reading:
`binary.Write(buf, binary.BigEndian, d.registers[0x2])`. -/
def readPreamble (regs : Bank) : List Nat := be16 (regs 0x2)

/-- The decode loop of `readRegisters`:
`for x := 0x0A; ; x++ { if x == 0x10 { x = 0 }; regs[x] = be16(data[c:c+2]); c += 2; if x == 0x09 { break } }`.
The loop body runs exactly 16 times; `fuel` makes that recursion structural. -/
def readLoop (data : List Nat) : Nat → Bank → Nat → Nat → Bank
  | 0, regs, _, _ => regs
  | fuel + 1, regs, x, counter =>
      let x' := if x = 0x10 then 0 else x
      let regs' := setReg regs x' (word16 (data.getD counter 0) (data.getD (counter + 1) 0))
      if x' = 0x09 then regs'
      else readLoop data fuel regs' (x' + 1) (counter + 2)

/-- `readRegisters`, as the caller-visible bank transformation.  `resp` is the
32-byte buffer the bus transaction fills, or `none` when `d.bus.Tx` fails; on
failure the method executes a bare `return`, leaving the bank untouched. -/
def readRegisters (regs : Bank) (resp : Option (List Nat)) : Bank :=
  match resp with
  | none => regs
  | some data => readLoop data 16 regs 0x0A 0

/-- Everything a caller of `readRegisters` receives: the (possibly updated)
bank, paired with the error value that reaches the caller.  The Go method is
declared `func (d *Device) readRegisters()` — it has no results, so no error
value can ever reach the caller; the `err` of a failed `d.bus.Tx` is bound to
a local variable and discarded by the bare `return`.  The error component is
therefore `none` in every case. -/
def readRegistersFull (regs : Bank) (resp : Option (List Nat)) : Bank × Option String :=
  (readRegisters regs resp, none)

/-- Modelled from the spec: the spec (§4.1, §7) requires a read-all whose
transaction failure "is surfaced to the caller"; this definition follows the
spec's words (`none` is the surfaced error) and is the comparison point for
claim C2, the source's `readRegistersFull` being the other side. -/
def readRegistersSpec (regs : Bank) (resp : Option (List Nat)) : Option Bank :=
  match resp with
  | none => none
  | some data => some (readLoop data 16 regs 0x0A 0)

/-! ### updateRegisters (source lines 207–222)

`updateRegisters` encodes registers 0x02..0x07, in ascending order, each
big-endian, into one buffer and transmits it in a single `d.bus.Tx` call. -/

/-- The encode loop of `updateRegisters`:
`for x := 0x02; x < 0x08; x++ { binary.Write(p, binary.BigEndian, d.registers[x]) }`. -/
def updLoop (regs : Bank) : Nat → Nat → List Nat → List Nat
  | 0, _, buf => buf
  | fuel + 1, x, buf =>
      if x < 0x08 then updLoop regs fuel (x + 1) (buf ++ be16 (regs x)) else buf

/-- The single payload `updateRegisters` transmits. -/
def updatePayload (regs : Bank) : List Nat := updLoop regs 6 0x02 []

/-! ### Bus events

One constructor per physical transaction the driver issues: a read-all
(`readRegisters`) or a write-range (`updateRegisters`) with its payload. -/

inductive BusEvent where
  | readAll : BusEvent
  | writeRange : List Nat → BusEvent
deriving DecidableEq

/-! ### SetVolume (source lines 224–235) -/

/-- The saturation applied to the `volume` argument.  `volume` is `uint16`,
so the Go guard `if volume < 0 { volume = 0 }` can never fire (mirrored here:
`v < 0` is false on `Nat`); `if volume > 15 { volume = 15 }` clamps above. -/
def clampVolume (v : Nat) : Nat :=
  let v1 := if v < 0 then 0 else v
  if v1 > 15 then 15 else v1

/-- The new SYSCONFIG2 word `SetVolume` builds:
`regs[SYSCONFIG2] = regs[SYSCONFIG2] & 0xFFF0; regs[SYSCONFIG2] |= volume`. -/
def setVolumeSysconfig2 (s v : Nat) : Nat := (s &&& 0xFFF0) ||| clampVolume v

/-! ### SetChannel arithmetic (source lines 237–245) -/

/-- The channel code `SetChannel` computes, in `uint16` arithmetic:
`newChannel := channel * 10; newChannel = newChannel - 8750; newChannel = newChannel / 20`.
Both the multiplication and the subtraction wrap modulo 2^16. -/
def chanCode (channel : Nat) : Nat :=
  ((channel * 10 % 65536) + 65536 - 8750) % 65536 / 20

/-- The new CHANNEL word `SetChannel` builds: clear the low 9 bits, OR in the
code, set the TUNE bit (three consecutive assignments in the source). -/
def setChannelWord (old channel : Nat) : Nat :=
  ((old &&& 0xFE00) ||| chanCode channel) ||| (1 <<< TUNE)

/-- The frequency a channel code denotes, in units of 10 kHz.  From
`printChannelNumber`, band 0: `freq := ((float64(channel) * 20) + 8750) / 100`
MHz — the numerator `channel*20 + 8750` is the frequency in tenths of kHz
and is exact integer arithmetic. -/
def channelFreqTenKHz (channel : Nat) : Nat := channel * 20 + 8750

/-! ### Seek power configuration (source lines 278–287) -/

/-- The new POWERCFG word `Seek` builds: `dir == 1` sets SEEKUP, anything
else clears it (`p &^ (1 << SEEKUP)`), and the SEEK bit is then set. -/
def seekPowercfg (p dir : Nat) : Nat :=
  let p1 := if dir = 1 then p ||| (1 <<< SEEKUP) else p &&& (0xFFFF ^^^ (1 <<< SEEKUP))
  p1 ||| (1 <<< SEEK)

/-! ### The polling loops (source lines 250–257, 266–273, 293–300, 308–315)

Each iteration re-reads the bank from the device and tests the STC bit of
STATUSRSSI.  `resp i` is the buffer the device returns to the i-th read-all
of the run; `fuel` bounds the iterations we unfold — `none` means the loop
is still running after `fuel` iterations. -/

/-- `for { d.readRegisters(); if regs[STATUSRSSI] & (1<<STC) != 0 { break } }`.
Returns the bank after the final read, the next unused response index, and
the read-all events issued. -/
def pollUntilSet (resp : Nat → List Nat) : Nat → Bank → Nat → Option (Bank × Nat × List BusEvent)
  | 0, _, _ => none
  | fuel + 1, regs, i =>
      let regs' := readRegisters regs (some (resp i))
      if regs' STATUSRSSI &&& (1 <<< STC) ≠ 0 then some (regs', i + 1, [BusEvent.readAll])
      else
        match pollUntilSet resp fuel regs' (i + 1) with
        | none => none
        | some (r, j, evs) => some (r, j, BusEvent.readAll :: evs)

/-- `for { d.readRegisters(); if regs[STATUSRSSI] & (1<<STC) == 0 { break } }`. -/
def pollUntilClear (resp : Nat → List Nat) : Nat → Bank → Nat → Option (Bank × Nat × List BusEvent)
  | 0, _, _ => none
  | fuel + 1, regs, i =>
      let regs' := readRegisters regs (some (resp i))
      if regs' STATUSRSSI &&& (1 <<< STC) = 0 then some (regs', i + 1, [BusEvent.readAll])
      else
        match pollUntilClear resp fuel regs' (i + 1) with
        | none => none
        | some (r, j, evs) => some (r, j, BusEvent.readAll :: evs)

/-! ### SetChannel and Seek as whole runs (source lines 237–276 and 278–317)

Both runs assume every bus transaction succeeds (`resp` always supplies a
buffer), which is the situation claims C1, C5 and C8 describe.  The
`rdsinfo = rds.NewRDSInfo()` statement between the two polls touches no bus
and no register, so it contributes nothing to the bank or the trace. -/

/-- `SetChannel(channel)`: read-all; mask/OR the CHANNEL word; write-range;
poll until STC sets; reset RDS state; clear the TUNE bit; write-range; poll
until STC clears.  Result: final shadow bank and the bus-event trace, or
`none` if a poll loop is still running after `fuel` iterations. -/
def setChannelRun (resp : Nat → List Nat) (regs0 : Bank) (channel : Nat) (fuel : Nat) :
    Option (Bank × List BusEvent) :=
  let regs1 := readRegisters regs0 (some (resp 0))
  let regs2 := setReg regs1 CHANNEL (setChannelWord (regs1 CHANNEL) channel)
  match pollUntilSet resp fuel regs2 1 with
  | none => none
  | some (regs3, i, evs1) =>
    let regs4 := setReg regs3 CHANNEL (regs3 CHANNEL &&& (0xFFFF ^^^ (1 <<< TUNE)))
    match pollUntilClear resp fuel regs4 i with
    | none => none
    | some (regs5, _, evs2) =>
      some (regs5,
        [BusEvent.readAll, BusEvent.writeRange (updatePayload regs2)] ++ evs1
          ++ [BusEvent.writeRange (updatePayload regs4)] ++ evs2)

/-- `Seek(dir)`: read-all; set/clear SEEKUP and set SEEK; write-range; poll
until STC sets; reset RDS state; clear the SEEK bit **in the shadow only**
— the source has no `updateRegisters` call between clearing the bit (line
306) and the final poll loop (lines 309–315), unlike `SetChannel` — then
poll until STC clears. -/
def seekRun (resp : Nat → List Nat) (regs0 : Bank) (dir : Nat) (fuel : Nat) :
    Option (Bank × List BusEvent) :=
  let regs1 := readRegisters regs0 (some (resp 0))
  let regs2 := setReg regs1 POWERCFG (seekPowercfg (regs1 POWERCFG) dir)
  match pollUntilSet resp fuel regs2 1 with
  | none => none
  | some (regs3, i, evs1) =>
    let regs4 := setReg regs3 POWERCFG (regs3 POWERCFG &&& (0xFFFF ^^^ (1 <<< SEEK)))
    match pollUntilClear resp fuel regs4 i with
    | none => none
    | some (regs5, _, evs2) =>
      some (regs5,
        [BusEvent.readAll, BusEvent.writeRange (updatePayload regs2)] ++ evs1 ++ evs2)

/-- Final bank of a finished run (all-zero bank if the run is still polling). -/
def finalBank (o : Option (Bank × List BusEvent)) : Bank :=
  match o with
  | some (r, _) => r
  | none => fun _ => 0

/-- Bus-event trace of a finished run (empty if the run is still polling). -/
def runTrace (o : Option (Bank × List BusEvent)) : List BusEvent :=
  match o with
  | some (_, evs) => evs
  | none => []

/-- The STATUSRSSI word a 32-byte response decodes to: the decode loop's
first iteration (x = 0x0A = STATUSRSSI) consumes bytes 0 and 1. -/
def stcWord (data : List Nat) : Nat := word16 (data.getD 0 0) (data.getD 1 0)

/-- Whether a bus event is a write-range transaction. -/
def isWriteRange : BusEvent → Bool
  | BusEvent.writeRange _ => true
  | BusEvent.readAll => false

/-! ### Concrete device behaviours used by witnesses and counterexamples -/

/-- The all-zero device: every response is 32 zero bytes, so STC never sets. -/
def silentResp : Nat → List Nat := fun _ => List.replicate 32 0

/-- A response reporting STC set: byte 0 = 0x40 puts bit 14 into the
STATUSRSSI word. -/
def respSTCSet : List Nat := 0x40 :: List.replicate 31 0

/-- A response reporting STC clear but the TUNE bit set: byte 18 = 0x80
makes bank position 3 (CHANNEL) decode to 0x8000. -/
def respTuneLeft : List Nat := List.replicate 18 0 ++ 0x80 :: List.replicate 13 0

/-- A response reporting STC clear but the SEEK bit set: byte 16 = 0x01
makes bank position 2 (POWERCFG) decode to 0x0100. -/
def respSeekLeft : List Nat := List.replicate 16 0 ++ 0x1 :: List.replicate 15 0

/-- Device responses satisfying C5's premise (STC set on the 2nd read-all,
clear on the 3rd) whose final response carries a set TUNE bit. -/
def cxRespTune : Nat → List Nat
  | 1 => respSTCSet
  | 2 => respTuneLeft
  | _ => List.replicate 32 0

/-- Device responses satisfying C5's premise whose final response carries a
set SEEK bit. -/
def cxRespSeek : Nat → List Nat
  | 1 => respSTCSet
  | 2 => respSeekLeft
  | _ => List.replicate 32 0

end Si4703

namespace Si4703

/-! ### Helper lemmas -/

/-- Pointwise description of the read-all decode: bank position `j` is filled
from response bytes `2*((j+6) % 16)` and the one after (device words
0x0A..0x0F land at positions 10..15, then 0x00..0x09 at 0..9). -/
lemma readRegisters_apply (data : List Nat) (regs : Bank) (j : Nat) (hj : j < 16) :
    readRegisters regs (some data) j =
      word16 (data.getD (2 * ((j + 6) % 16)) 0) (data.getD (2 * ((j + 6) % 16) + 1) 0) := by
  interval_cases j <;> rfl

/-- The STATUSRSSI word after a successful read-all is decoded from the first
two response bytes, whatever the previous bank contents. -/
lemma readRegisters_statusrssi (data : List Nat) (regs : Bank) :
    readRegisters regs (some data) STATUSRSSI = stcWord data := rfl

/-- ORing a value below 16 into a word whose low 4 bits were masked off
leaves exactly that value in the low 4 bits. -/
lemma masked_or_low4 (s c : Nat) (hc : c < 16) : ((s &&& 0xFFF0) ||| c) &&& 0xF = c := by
  rw [Nat.and_comm _ 0xF, Nat.and_or_distrib_left, Nat.and_comm 0xF (s &&& 0xFFF0),
      Nat.and_assoc, Nat.and_comm 0xF c]
  have h0 : (0xFFF0 &&& 0xF : Nat) = 0 := by decide
  have h1 : (0xF : Nat) = 2 ^ 4 - 1 := by norm_num
  rw [h0, Nat.and_zero, Nat.zero_or, h1, Nat.and_pow_two_sub_one_eq_mod, Nat.mod_eq_of_lt hc]

/-- A number strictly between 0x1FF and 0x1000 has one of bits 9..11 set. -/
lemma exists_high_bit (n : Nat) (h1 : 511 < n) (h2 : n < 4096) :
    n.testBit 9 = true ∨ n.testBit 10 = true ∨ n.testBit 11 = true := by
  by_contra hc
  push_neg at hc
  obtain ⟨h9, h10, h11⟩ := hc
  simp [Nat.testBit_to_div_mod] at h9 h10 h11
  omega

/-- The dead below-0 guard removed: `clampVolume` is saturation above 15. -/
lemma clampVolume_eq (v : Nat) : clampVolume v = if 15 < v then 15 else v := by
  simp [clampVolume]

/-- `clampVolume` never exceeds 15. -/
lemma clampVolume_lt (v : Nat) : clampVolume v < 16 := by
  rw [clampVolume_eq]
  split <;> omega

/-! ### Claim C2 -/

/-- C2, counterexample to the error-reporting half of the claim: on a bank
holding `i + 100` at index `i`, a failed read-all transaction leaves every
word unchanged (first component), but the value surfaced to the caller is
`none` — no error is reported, because the Go method has no return values
and its `err` local dies at the bare `return`.  The claim asserts the
failure "is reported as an error to the caller rather than silently
ignored", which this run refutes. -/
theorem c2_counterexample :
    readRegistersFull (fun i => i + 100) none = (fun i => i + 100, none) := rfl

/-- C2, amended: for every bus read-all transaction that fails at the
transport level, all words of the register bank retain exactly the values
they held before the call, and the failure is silently ignored — the caller
receives no error value (the method returns nothing). -/
theorem c2_read_failure_silent : ∀ regs : Bank, readRegistersFull regs none = (regs, none) :=
  fun _ => rfl

/-! ### Claim C3 -/

/-- C3, counterexample to the concrete instance: f = 101.1 MHz is 10110
tens-of-kHz, `SetChannel`'s argument is 1011, and the computed channel code
is (10110 − 8750)/20 = 68, not 172; code 68 recovers 101.10 MHz while code
172 recovers 121.90 MHz. -/
theorem c3_counterexample :
    chanCode 1011 = 68 ∧ channelFreqTenKHz 68 = 10110 ∧
    channelFreqTenKHz 172 = 12190 ∧ (68 : Nat) ≠ 172 := by
  refine ⟨by decide, by decide, by decide, by decide⟩

/-- C3, amended: for every frequency f (tens of kHz) on the 200 kHz grid
(f ≡ 10 mod 20, 8750 ≤ f, representable in uint16), the code computed by
the tune operation from the argument f/10 is (f − 8750)/20, and the
recovery code·20 + 8750 is its exact inverse; in particular f = 101.1 MHz
maps to code 68 and code 68 recovers 101.10 MHz. -/
theorem c3_roundtrip :
    (∀ f : Nat, 8750 ≤ f → f < 65536 → f % 20 = 10 →
        chanCode (f / 10) = (f - 8750) / 20 ∧ channelFreqTenKHz (chanCode (f / 10)) = f) ∧
    chanCode 1011 = 68 ∧ channelFreqTenKHz 68 = 10110 := by
  refine ⟨fun f h1 h2 h3 => ⟨?_, ?_⟩, by decide, by decide⟩
  · unfold chanCode
    omega
  · unfold channelFreqTenKHz chanCode
    omega

/-- Witness for C3: the general round trip applied at f = 10110. -/
theorem c3_roundtrip_witness :
    chanCode (10110 / 10) = (10110 - 8750) / 20 ∧
    channelFreqTenKHz (chanCode (10110 / 10)) = 10110 :=
  c3_roundtrip.1 10110 (by decide) (by decide) (by decide)

/-! ### Claim C4 -/

/-- C4: a successful read-all decodes the 32 response bytes as big-endian
16-bit words, word i (bytes 2i, 2i+1) landing at bank position (10+i) mod 16
— equivalently bank position j is filled from byte offset 2·((j+6) mod 16)
— the position map is injective (each register filled exactly once), and
the transaction's write preamble is register 0x02 encoded big-endian. -/
theorem c4_readAll_mapping :
    (∀ (data : List Nat) (regs : Bank) (j : Nat), j < 16 →
        readRegisters regs (some data) j =
          word16 (data.getD (2 * ((j + 6) % 16)) 0) (data.getD (2 * ((j + 6) % 16) + 1) 0)) ∧
    (∀ j, j < 16 → ∀ j', j' < 16 → 2 * ((j + 6) % 16) = 2 * ((j' + 6) % 16) → j = j') ∧
    (∀ regs : Bank, readPreamble regs = [regs 0x2 / 256 % 256, regs 0x2 % 256]) := by
  refine ⟨readRegisters_apply, by decide, fun _ => rfl⟩

/-- Witness for C4: the mapping at bank position 0 of a concrete buffer —
position 0 is filled from bytes 12 and 13. -/
theorem c4_readAll_mapping_witness :
    readRegisters (fun _ => 0) (some (List.range 32)) 0 =
      word16 ((List.range 32).getD 12 0) ((List.range 32).getD 13 0) :=
  c4_readAll_mapping.1 (List.range 32) (fun _ => 0) 0 (by decide)

/-! ### Claim C6 -/

/-- C6: the write-range payload is exactly registers 0x02 through 0x07, in
ascending index order, each as a big-endian 16-bit word with no gaps — a
single 12-byte buffer, transmitted by `updateRegisters` in its one
`d.bus.Tx` call. -/
theorem c6_writeRange_payload : ∀ regs : Bank,
    updatePayload regs =
      [be16hi (regs 0x2), be16lo (regs 0x2), be16hi (regs 0x3), be16lo (regs 0x3),
       be16hi (regs 0x4), be16lo (regs 0x4), be16hi (regs 0x5), be16lo (regs 0x5),
       be16hi (regs 0x6), be16lo (regs 0x6), be16hi (regs 0x7), be16lo (regs 0x7)] ∧
    (updatePayload regs).length = 12 :=
  fun _ => ⟨rfl, rfl⟩

/-! ### Claim C7 -/

/-- C7: the value written into the 4-bit volume field of SYSCONFIG2 is the
clamp of the argument to [0, 15]: arguments above 15 map to 15 and
arguments already in range are written unchanged (the argument is unsigned,
so the below-0 branch is vacuous). -/
theorem c7_volume_clamped : ∀ s v : Nat,
    setVolumeSysconfig2 s v &&& 0xF = clampVolume v ∧
    (15 < v → clampVolume v = 15) ∧ (v ≤ 15 → clampVolume v = v) := by
  intro s v
  refine ⟨masked_or_low4 s (clampVolume v) (clampVolume_lt v), ?_, ?_⟩
  · intro h; rw [clampVolume_eq]; exact if_pos h
  · intro h; rw [clampVolume_eq]; rw [if_neg (by omega)]

/-- Witness for C7: volume 100 saturates to 15 and volume 7 is kept; the
field of SYSCONFIG2 = 0x1234 receives the clamped value. -/
theorem c7_volume_clamped_witness :
    setVolumeSysconfig2 0x1234 100 &&& 0xF = clampVolume 100 ∧
    clampVolume 100 = 15 ∧ clampVolume 7 = 7 :=
  ⟨(c7_volume_clamped 0x1234 100).1, (c7_volume_clamped 0x1234 100).2.1 (by decide),
    (c7_volume_clamped 0 7).2.2 (by decide)⟩

end Si4703

namespace Si4703

/-! ### Poll-loop lemmas -/

/-- If the device never reports STC set, the set-poll loop never returns:
no amount of fuel suffices. -/
lemma pollUntilSet_none (resp : Nat → List Nat)
    (h : ∀ i, stcWord (resp i) &&& (1 <<< STC) = 0) :
    ∀ fuel regs i, pollUntilSet resp fuel regs i = none := by
  intro fuel
  induction fuel with
  | zero => intro regs i; rfl
  | succ fuel ih =>
    intro regs i
    have hs : (readRegisters regs (some (resp i))) STATUSRSSI &&& (1 <<< STC) = 0 := by
      rw [readRegisters_statusrssi]; exact h i
    simp [pollUntilSet, hs, ih]

/-- If some response at index `start + k` reports STC set, the set-poll loop
with more than `k` iterations of fuel returns: the bank read last satisfies
the exit condition and the next response index is at most `start + k + 1`. -/
lemma pollUntilSet_some (resp : Nat → List Nat) :
    ∀ fuel start regs k, k < fuel → stcWord (resp (start + k)) &&& (1 <<< STC) ≠ 0 →
      ∃ r m evs, pollUntilSet resp fuel regs start = some (r, m, evs) ∧
        m ≤ start + k + 1 ∧ r STATUSRSSI &&& (1 <<< STC) ≠ 0 := by
  intro fuel
  induction fuel with
  | zero => intro start regs k hk _; omega
  | succ fuel ih =>
    intro start regs k hk hset
    by_cases h : (readRegisters regs (some (resp start))) STATUSRSSI &&& (1 <<< STC) ≠ 0
    · exact ⟨_, start + 1, [BusEvent.readAll], by simp [pollUntilSet, h], by omega, h⟩
    · push_neg at h
      rcases k with _ | k'
      · rw [Nat.add_zero] at hset
        rw [readRegisters_statusrssi] at h
        exact absurd h hset
      · have hset' : stcWord (resp (start + 1 + k')) &&& (1 <<< STC) ≠ 0 := by
          have he : start + 1 + k' = start + (k' + 1) := by omega
          rw [he]; exact hset
        obtain ⟨r, m, evs, heq, hm, hr⟩ :=
          ih (start + 1) (readRegisters regs (some (resp start))) k' (by omega) hset'
        refine ⟨r, m, BusEvent.readAll :: evs, ?_, by omega, hr⟩
        simp [pollUntilSet, h, heq]

/-- Dual of `pollUntilSet_some` for the clear-poll loop. -/
lemma pollUntilClear_some (resp : Nat → List Nat) :
    ∀ fuel start regs k, k < fuel → stcWord (resp (start + k)) &&& (1 <<< STC) = 0 →
      ∃ r m evs, pollUntilClear resp fuel regs start = some (r, m, evs) ∧
        m ≤ start + k + 1 ∧ r STATUSRSSI &&& (1 <<< STC) = 0 := by
  intro fuel
  induction fuel with
  | zero => intro start regs k hk _; omega
  | succ fuel ih =>
    intro start regs k hk hclear
    by_cases h : (readRegisters regs (some (resp start))) STATUSRSSI &&& (1 <<< STC) = 0
    · exact ⟨_, start + 1, [BusEvent.readAll], by simp [pollUntilClear, h], by omega, h⟩
    · rcases k with _ | k'
      · rw [Nat.add_zero] at hclear
        rw [readRegisters_statusrssi] at h
        exact absurd hclear h
      · have hclear' : stcWord (resp (start + 1 + k')) &&& (1 <<< STC) = 0 := by
          have he : start + 1 + k' = start + (k' + 1) := by omega
          rw [he]; exact hclear
        obtain ⟨r, m, evs, heq, hm, hr⟩ :=
          ih (start + 1) (readRegisters regs (some (resp start))) k' (by omega) hclear'
        refine ⟨r, m, BusEvent.readAll :: evs, ?_, by omega, hr⟩
        simp [pollUntilClear, h, heq]

/-! ### Claim C8 -/

/-- C8: neither SetChannel nor Seek bounds its polling — against a device
whose responses never report STC set, no amount of fuel makes either run
return (the poll loop never terminates), and the result type shows no
timeout error is ever produced (the only outcomes are a finished bank or
still-running). -/
theorem c8_unbounded_polling :
    ∀ (resp : Nat → List Nat) (regs0 : Bank) (channel dir : Nat),
      (∀ i, stcWord (resp i) &&& (1 <<< STC) = 0) →
      ∀ fuel, setChannelRun resp regs0 channel fuel = none ∧
        seekRun resp regs0 dir fuel = none := by
  intro resp regs0 channel dir h fuel
  constructor
  · simp [setChannelRun, pollUntilSet_none resp h]
  · simp [seekRun, pollUntilSet_none resp h]

/-- The all-zero device never reports STC set. -/
lemma silentResp_stc : ∀ i, stcWord (silentResp i) &&& (1 <<< STC) = 0 := fun _ =>
  (by decide : stcWord (List.replicate 32 0) &&& (1 <<< STC) = 0)

/-- Witness for C8: against the all-zero device, both runs are still polling
after 5 iterations. -/
theorem c8_unbounded_polling_witness :
    setChannelRun silentResp (fun _ => 0) 973 5 = none ∧
    seekRun silentResp (fun _ => 0) 1 5 = none :=
  c8_unbounded_polling silentResp (fun _ => 0) 973 1 silentResp_stc 5

end Si4703

namespace Si4703

/-! ### Claim C5 -/

/-- C5, amended: whenever some response (at index i ≥ 1, after the initial
read) reports STC set and a later one (index j > i) reports STC clear, both
runs terminate with enough fuel, and the terminal shadow bank has the
completion flag clear.  (The TUNE/SEEK bit and the channel code of the
terminal bank are whatever the final response reports — see the
counterexample — because every poll iteration overwrites the whole shadow
bank with device data.) -/
theorem c5_terminates_flag_clear :
    ∀ (resp : Nat → List Nat) (regs0 : Bank) (channel dir i j : Nat),
      1 ≤ i → i < j →
      stcWord (resp i) &&& (1 <<< STC) ≠ 0 →
      stcWord (resp j) &&& (1 <<< STC) = 0 →
      ∃ fuel,
        (setChannelRun resp regs0 channel fuel).isSome = true ∧
        finalBank (setChannelRun resp regs0 channel fuel) STATUSRSSI &&& (1 <<< STC) = 0 ∧
        (seekRun resp regs0 dir fuel).isSome = true ∧
        finalBank (seekRun resp regs0 dir fuel) STATUSRSSI &&& (1 <<< STC) = 0 := by
  intro resp regs0 channel dir i j hi hij hset hclear
  have hset1 : stcWord (resp (1 + (i - 1))) &&& (1 <<< STC) ≠ 0 := by
    have he : 1 + (i - 1) = i := by omega
    rw [he]; exact hset
  refine ⟨j + 1, ?_⟩
  obtain ⟨r3, m, evs1, heq1, hm, _⟩ :=
    pollUntilSet_some resp (j + 1) 1
      (setReg (readRegisters regs0 (some (resp 0))) CHANNEL
        (setChannelWord ((readRegisters regs0 (some (resp 0))) CHANNEL) channel))
      (i - 1) (by omega) hset1
  have hclear1 : stcWord (resp (m + (j - m))) &&& (1 <<< STC) = 0 := by
    have he : m + (j - m) = j := by omega
    rw [he]; exact hclear
  obtain ⟨r5, m2, evs2, heq2, hm2, hr5⟩ :=
    pollUntilClear_some resp (j + 1) m
      (setReg r3 CHANNEL (r3 CHANNEL &&& (0xFFFF ^^^ (1 <<< TUNE))))
      (j - m) (by omega) hclear1
  obtain ⟨s3, n, evs3, heq3, hn, _⟩ :=
    pollUntilSet_some resp (j + 1) 1
      (setReg (readRegisters regs0 (some (resp 0))) POWERCFG
        (seekPowercfg ((readRegisters regs0 (some (resp 0))) POWERCFG) dir))
      (i - 1) (by omega) hset1
  have hclear2 : stcWord (resp (n + (j - n))) &&& (1 <<< STC) = 0 := by
    have he : n + (j - n) = j := by omega
    rw [he]; exact hclear
  obtain ⟨s5, n2, evs4, heq4, hn2, hs5⟩ :=
    pollUntilClear_some resp (j + 1) n
      (setReg s3 POWERCFG (s3 POWERCFG &&& (0xFFFF ^^^ (1 <<< SEEK))))
      (j - n) (by omega) hclear2
  refine ⟨?_, ?_, ?_, ?_⟩
  · simp [setChannelRun, heq1, heq2]
  · simpa [setChannelRun, heq1, heq2, finalBank] using hr5
  · simp [seekRun, heq3, heq4]
  · simpa [seekRun, heq3, heq4, finalBank] using hs5

end Si4703

namespace Si4703

/-- C5, counterexample to the terminal-state conclusion as stated: both
response sequences satisfy the claim's premise (STC eventually set, then
eventually clear), both runs terminate, the completion flag is clear in the
terminal bank — but SetChannel ends with the TUNE bit of the shadow CHANNEL
register set, and Seek ends with the SEEK bit of the shadow POWERCFG
register set, because the final poll overwrites the whole shadow bank with
the device's last response. -/
theorem c5_counterexample :
    stcWord (cxRespTune 1) &&& (1 <<< STC) ≠ 0 ∧
    stcWord (cxRespTune 2) &&& (1 <<< STC) = 0 ∧
    (setChannelRun cxRespTune (fun _ => 0) 973 5).isSome = true ∧
    finalBank (setChannelRun cxRespTune (fun _ => 0) 973 5) STATUSRSSI &&& (1 <<< STC) = 0 ∧
    finalBank (setChannelRun cxRespTune (fun _ => 0) 973 5) CHANNEL &&& (1 <<< TUNE) ≠ 0 ∧
    stcWord (cxRespSeek 1) &&& (1 <<< STC) ≠ 0 ∧
    stcWord (cxRespSeek 2) &&& (1 <<< STC) = 0 ∧
    (seekRun cxRespSeek (fun _ => 0) 1 5).isSome = true ∧
    finalBank (seekRun cxRespSeek (fun _ => 0) 1 5) POWERCFG &&& (1 <<< SEEK) ≠ 0 := by
  refine ⟨by decide, by decide, by decide, by decide, by decide, by decide, by decide,
    by decide, by decide⟩

/-- Witness for C5: the amended theorem applied to the `cxRespTune` device
with a set at index 1 and a clear at index 2. -/
theorem c5_terminates_flag_clear_witness :
    ∃ fuel,
      (setChannelRun cxRespTune (fun _ => 0) 973 fuel).isSome = true ∧
      finalBank (setChannelRun cxRespTune (fun _ => 0) 973 fuel) STATUSRSSI &&& (1 <<< STC) = 0 ∧
      (seekRun cxRespTune (fun _ => 0) 0 fuel).isSome = true ∧
      finalBank (seekRun cxRespTune (fun _ => 0) 0 fuel) STATUSRSSI &&& (1 <<< STC) = 0 :=
  c5_terminates_flag_clear cxRespTune (fun _ => 0) 973 0 1 2 (by decide) (by decide)
    (by decide) (by decide)

end Si4703

namespace Si4703

/-! ### Claim C1 -/

/-- C1, evaluated at the failing input `Seek(1)` against a device that
reports STC set on the second read-all and clear on the third: the whole
bus trace is initial read-all, one write-range (SEEK bit set), the read-all
that observes STC set, and the final poll's read-all.  After the
set-observation (trace position 2) no write-range occurs — the cleared SEEK
bit is never transmitted before (or during) the final poll loop, whereas
`SetChannel` on the same device issues a second write-range for its cleared
TUNE bit.  This contradicts the claim (and spec step (6)): the source
mutates the shadow POWERCFG at line 306 but has no `updateRegisters` call
before the loop at lines 309–315. -/
theorem c1_seek_missing_clear_write :
    runTrace (seekRun cxRespSeek (fun _ => 0) 1 5) =
      [BusEvent.readAll, BusEvent.writeRange [3, 0, 0, 0, 0, 0, 0, 0, 0, 0, 0, 0],
        BusEvent.readAll, BusEvent.readAll] ∧
    ((runTrace (seekRun cxRespSeek (fun _ => 0) 1 5)).drop 3).countP isWriteRange = 0 ∧
    (runTrace (setChannelRun cxRespSeek (fun _ => 0) 973 5)).countP isWriteRange = 2 := by
  refine ⟨by decide, by decide, by decide⟩

/-! ### Claim C9 -/

/-- C9: the channel code is computed in unsigned 16-bit arithmetic without
masking to 9 bits — for every argument below 875 the subtraction wraps
modulo 2^16 (the code becomes (channel·10 + 2^16 − 8750)/20), and whenever
the code exceeds 0x1FF it has a set bit among positions 9..11, which the OR
into the CHANNEL word propagates into bits 9..14 above the 9-bit channel
field. -/
theorem c9_unmasked_code :
    (∀ channel, channel < 875 → chanCode channel = (channel * 10 + 65536 - 8750) / 20) ∧
    (∀ channel old, 0x1FF < chanCode channel →
      ∃ b, 9 ≤ b ∧ b ≤ 14 ∧ (chanCode channel).testBit b = true ∧
        (setChannelWord old channel).testBit b = true) := by
  constructor
  · intro channel h
    unfold chanCode
    omega
  · intro channel old h
    have hlt : chanCode channel < 4096 := by unfold chanCode; omega
    obtain hb | hb | hb := exists_high_bit (chanCode channel) h hlt
    · exact ⟨9, by omega, by omega, hb, by simp [setChannelWord, Nat.testBit_or, hb]⟩
    · exact ⟨10, by omega, by omega, hb, by simp [setChannelWord, Nat.testBit_or, hb]⟩
    · exact ⟨11, by omega, by omega, hb, by simp [setChannelWord, Nat.testBit_or, hb]⟩

/-- Witness for C9: channel 0 wraps (code 2839 = 56786/20) and pollutes the
CHANNEL word above the 9-bit field. -/
theorem c9_unmasked_code_witness :
    chanCode 0 = (0 * 10 + 65536 - 8750) / 20 ∧
    ∃ b, 9 ≤ b ∧ b ≤ 14 ∧ (chanCode 0).testBit b = true ∧
      (setChannelWord 0 0).testBit b = true :=
  ⟨c9_unmasked_code.1 0 (by decide), c9_unmasked_code.2 0 0 (by decide)⟩

/-! ### Claim C10 -/

/-- C10: `Seek` interprets its direction argument by equality with 1 only —
`dir = 1` sets the seek-direction bit, every other value clears it, and the
SEEK bit is set in both cases. -/
theorem c10_seek_direction : ∀ p dir : Nat,
    (dir = 1 → (seekPowercfg p dir).testBit SEEKUP = true) ∧
    (dir ≠ 1 → (seekPowercfg p dir).testBit SEEKUP = false) ∧
    (seekPowercfg p dir).testBit SEEK = true := by
  intro p dir
  have h512 : Nat.testBit 512 9 = true := by decide
  have h256 : Nat.testBit 256 9 = false := by decide
  have h256b : Nat.testBit 256 8 = true := by decide
  have h65023 : Nat.testBit 65023 9 = false := by decide
  refine ⟨fun h => ?_, fun h => ?_, ?_⟩
  · simp [seekPowercfg, h, SEEKUP, SEEK, Nat.testBit_or, h512]
  · simp [seekPowercfg, h, SEEKUP, SEEK, Nat.testBit_or, Nat.testBit_and, h256, h65023]
  · by_cases h : dir = 1 <;>
      simp [seekPowercfg, h, SEEKUP, SEEK, Nat.testBit_or, h256b]

/-- Witness for C10: direction 1 seeks up; directions 0 and 255 clear the
direction bit; the SEEK bit is always set. -/
theorem c10_seek_direction_witness :
    (seekPowercfg 0 1).testBit SEEKUP = true ∧
    (seekPowercfg 0xFFFF 0).testBit SEEKUP = false ∧
    (seekPowercfg 0xFFFF 255).testBit SEEKUP = false ∧
    (seekPowercfg 0 255).testBit SEEK = true :=
  ⟨(c10_seek_direction 0 1).1 rfl, (c10_seek_direction 0xFFFF 0).2.1 (by decide),
    (c10_seek_direction 0xFFFF 255).2.1 (by decide), (c10_seek_direction 0 255).2.2⟩

end Si4703
